import Mathlib

/-
Verification of the dsc (Data Structures for C) container library.

Source files embedded here:
  * src/unnamed/part_001 : the `dsc_vector_t` vector implementation
    (sizes are `size_t`, 64-bit; `dsc_vector_resize` returns void and on
    allocation failure only sets the error slot, leaving the old buffer in
    place).
  * src/include/dsc_set.h : the hash-set public header (the set
    implementation itself is not in src/, so set operations are modelled
    from the spec), followed in the same file by a second vector
    implementation over `struct DSCVector` (sizes are `unsigned int`;
    its `dsc_vector_resize` returns bool and callers check it).

Modelling conventions:
  * A C pointer handle is `Option dsc_vector_t`; `none` models NULL.
  * The `values` buffer is abstracted to its live contents: the list of
    the first `size` slots of the allocated array.  `values = none`
    models a NULL values pointer.  Machine widths (size_t = 64 bits,
    unsigned int = 32 bits) matter only beyond 2^32 elements and are
    noted where dropped; the SIZE_MAX overflow guard of part_001's
    resize is kept, with SIZE_MAX = 2^64 - 1.
  * The process-wide error slot (dsc_set_error from dsc_error.h) is
    modelled by having every operation return the list of error codes it
    writes, in order; the slot's value after the call is the last
    element of that list.
  * malloc / realloc success is an explicit boolean oracle argument.
  * The C expression `capacity * 1.5` converts capacity to double,
    multiplies, and truncates back to an integer; for every capacity
    below 2^51 this is exactly floor(3 * capacity / 2), which is how it
    is written here.
-/

inductive dsc_error_t where
  | DSC_ERROR_NONE
  | DSC_ERROR_INVALID_ARGUMENT
  | DSC_ERROR_OUT_OF_MEMORY
  | DSC_ERROR_OUT_OF_RANGE
  | DSC_ERROR_EMPTY_CONTAINER
  | DSC_ERROR_NOT_FOUND
  | DSC_ERROR_DUPLICATE_ITEM
  deriving DecidableEq

/-- SIZE_MAX for a 64-bit size_t. -/
def SIZE_MAX : Nat := 2 ^ 64 - 1

/-- Modelled from the spec: the header `dsc_vector.h`, which defines this
macro, is not under src/.  The library's initial-capacity convention is 16
(spec fixes `DSC_SET_INITIAL_CAPACITY` 16); both vector implementations
include the same header, so no claim below depends on the value chosen. -/
def DSC_VECTOR_INITIAL_CAPACITY : Nat := 16

/-- Shared shape of `struct dsc_vector_t` (part_001, size_t fields) and
`struct DSCVector` (dsc_set.h, unsigned int fields): a values buffer, a
size and a capacity.  `values` holds the live contents (first `size`
slots); `none` models a NULL buffer pointer. -/
structure dsc_vector_t where
  values : Option (List Int)
  size : Nat
  capacity : Nat
  deriving DecidableEq

/-- The effect on the live contents of the C insert loop: shift
`values[size-1..position]` one slot right, then write `value` at
`position`. -/
def listInsertAt (l : List Int) (position : Nat) (x : Int) : List Int :=
  l.take position ++ x :: l.drop position

/-- The effect on the live contents of the C erase loop: shift
`values[position+1..size-1]` one slot left, then drop the last live slot. -/
def listRemoveAt (l : List Int) (position : Nat) : List Int :=
  l.take position ++ l.drop (position + 1)

namespace V1

/-- `dsc_vector_resize`, src/unnamed/part_001 lines 33-53.  Returns void in
C; on failure it only writes OUT_OF_MEMORY, leaving buffer and capacity
untouched.  On success (malloc plus memcpy of the live contents) it
installs the new buffer and capacity and writes nothing. -/
def dsc_vector_resize (vector : dsc_vector_t) (new_capacity : Nat) (mallocOk : Bool) :
    dsc_vector_t × List dsc_error_t :=
  if new_capacity > SIZE_MAX / 4 then
    (vector, [dsc_error_t.DSC_ERROR_OUT_OF_MEMORY])
  else if mallocOk = false then
    (vector, [dsc_error_t.DSC_ERROR_OUT_OF_MEMORY])
  else
    ({ vector with values := some (vector.values.getD []), capacity := new_capacity },
      [])

/-- `dsc_vector_create`, part_001 lines 55-74.  The fresh struct's `values`
field is uninitialized when `dsc_vector_resize` reads it; the C code reads
an uninitialized pointer there (undefined behavior), modelled as NULL. -/
def dsc_vector_create (structMallocOk bufMallocOk : Bool) :
    Option dsc_vector_t × List dsc_error_t :=
  if structMallocOk = false then (none, [dsc_error_t.DSC_ERROR_OUT_OF_MEMORY])
  else
    let v0 : dsc_vector_t :=
      { values := none, size := 0, capacity := DSC_VECTOR_INITIAL_CAPACITY }
    let r := dsc_vector_resize v0 DSC_VECTOR_INITIAL_CAPACITY bufMallocOk
    if r.1.values = none then (none, r.2 ++ [dsc_error_t.DSC_ERROR_OUT_OF_MEMORY])
    else (some r.1, r.2 ++ [dsc_error_t.DSC_ERROR_NONE])

/-- `dsc_vector_free`, part_001 lines 76-86. -/
def dsc_vector_free (vector : Option dsc_vector_t) :
    Option dsc_vector_t × List dsc_error_t :=
  match vector with
  | none => (none, [dsc_error_t.DSC_ERROR_INVALID_ARGUMENT])
  | some _ => (none, [dsc_error_t.DSC_ERROR_NONE])

/-- `dsc_vector_push_back`, part_001 lines 88-107.  Note: after a failed
resize the buffer pointer is still non-NULL, so the `values == NULL` check
does not fire and the function keeps going, writing `values[size]` past the
old buffer (a heap overflow in C, modelled as an append to the live
contents), incrementing size and writing DSC_ERROR_NONE. -/
def dsc_vector_push_back (vector : Option dsc_vector_t) (value : Int) (mallocOk : Bool) :
    Option dsc_vector_t × List dsc_error_t :=
  match vector with
  | none => (none, [dsc_error_t.DSC_ERROR_INVALID_ARGUMENT])
  | some v =>
    if v.size ≥ v.capacity then
      let r := dsc_vector_resize v (3 * v.capacity / 2) mallocOk
      if r.1.values = none then
        (some r.1, r.2 ++ [dsc_error_t.DSC_ERROR_OUT_OF_MEMORY])
      else
        (some { r.1 with
                values := some (r.1.values.getD [] ++ [value])
                size := r.1.size + 1 },
          r.2 ++ [dsc_error_t.DSC_ERROR_NONE])
    else
      (some { v with values := some (v.values.getD [] ++ [value]), size := v.size + 1 },
        [dsc_error_t.DSC_ERROR_NONE])

/-- `dsc_vector_empty`, part_001 lines 192-200. -/
def dsc_vector_empty (vector : Option dsc_vector_t) : Bool × List dsc_error_t :=
  match vector with
  | none => (true, [dsc_error_t.DSC_ERROR_INVALID_ARGUMENT])
  | some v => (v.size == 0, [dsc_error_t.DSC_ERROR_NONE])

/-- `dsc_vector_pop_back`, part_001 lines 109-122.  It calls
`dsc_vector_empty`, which itself writes the error slot, so every call with
a non-null handle writes the slot twice. -/
def dsc_vector_pop_back (vector : Option dsc_vector_t) :
    Option dsc_vector_t × List dsc_error_t :=
  match vector with
  | none => (none, [dsc_error_t.DSC_ERROR_INVALID_ARGUMENT])
  | some v =>
    let e := dsc_vector_empty (some v)
    if e.1 then (some v, e.2 ++ [dsc_error_t.DSC_ERROR_EMPTY_CONTAINER])
    else
      (some { v with values := some ((v.values.getD []).dropLast), size := v.size - 1 },
        e.2 ++ [dsc_error_t.DSC_ERROR_NONE])

/-- `dsc_vector_insert`, part_001 lines 124-155.  Returns the position
written (a size_t).  Same dead `values == NULL` check as push_back after a
failed resize. -/
def dsc_vector_insert (vector : Option dsc_vector_t) (position : Nat) (value : Int)
    (mallocOk : Bool) : Option dsc_vector_t × List dsc_error_t × Nat :=
  match vector with
  | none => (none, [dsc_error_t.DSC_ERROR_INVALID_ARGUMENT], 0)
  | some v =>
    if position > v.size then
      (some v, [dsc_error_t.DSC_ERROR_OUT_OF_RANGE], 0)
    else if v.size ≥ v.capacity then
      let r := dsc_vector_resize v (3 * v.capacity / 2) mallocOk
      if r.1.values = none then
        (some r.1, r.2 ++ [dsc_error_t.DSC_ERROR_OUT_OF_MEMORY], 0)
      else
        (some { r.1 with
                values := some (listInsertAt (r.1.values.getD []) position value)
                size := r.1.size + 1 },
          r.2 ++ [dsc_error_t.DSC_ERROR_NONE], position)
    else
      (some { v with
              values := some (listInsertAt (v.values.getD []) position value)
              size := v.size + 1 },
        [dsc_error_t.DSC_ERROR_NONE], position)

/-- `dsc_vector_erase`, part_001 lines 157-175. -/
def dsc_vector_erase (vector : Option dsc_vector_t) (position : Nat) :
    Option dsc_vector_t × List dsc_error_t :=
  match vector with
  | none => (none, [dsc_error_t.DSC_ERROR_INVALID_ARGUMENT])
  | some v =>
    if position ≥ v.size then (some v, [dsc_error_t.DSC_ERROR_OUT_OF_RANGE])
    else
      (some { v with
              values := some (listRemoveAt (v.values.getD []) position)
              size := v.size - 1 },
        [dsc_error_t.DSC_ERROR_NONE])

/-- `dsc_vector_at`, part_001 lines 177-190. -/
def dsc_vector_at (vector : Option dsc_vector_t) (index : Nat) :
    Int × List dsc_error_t :=
  match vector with
  | none => (0, [dsc_error_t.DSC_ERROR_INVALID_ARGUMENT])
  | some v =>
    if index ≥ v.size then (0, [dsc_error_t.DSC_ERROR_OUT_OF_RANGE])
    else ((v.values.getD []).getD index 0, [dsc_error_t.DSC_ERROR_NONE])

/-- `dsc_vector_size`, part_001 lines 202-210.  Returns a size_t; 0 on a
NULL handle. -/
def dsc_vector_size (vector : Option dsc_vector_t) : Nat × List dsc_error_t :=
  match vector with
  | none => (0, [dsc_error_t.DSC_ERROR_INVALID_ARGUMENT])
  | some v => (v.size, [dsc_error_t.DSC_ERROR_NONE])

/-- `dsc_vector_capacity`, part_001 lines 212-220. -/
def dsc_vector_capacity (vector : Option dsc_vector_t) : Nat × List dsc_error_t :=
  match vector with
  | none => (0, [dsc_error_t.DSC_ERROR_INVALID_ARGUMENT])
  | some v => (v.capacity, [dsc_error_t.DSC_ERROR_NONE])

/-- `dsc_vector_reserve`, part_001 lines 222-240.  Same dead
`values == NULL` check after a failed resize: on allocation failure it
falls through and writes DSC_ERROR_NONE over the OUT_OF_MEMORY that resize
wrote. -/
def dsc_vector_reserve (vector : Option dsc_vector_t) (new_capacity : Nat)
    (mallocOk : Bool) : Option dsc_vector_t × List dsc_error_t :=
  match vector with
  | none => (none, [dsc_error_t.DSC_ERROR_INVALID_ARGUMENT])
  | some v =>
    if new_capacity ≤ v.capacity then (some v, [dsc_error_t.DSC_ERROR_INVALID_ARGUMENT])
    else
      let r := dsc_vector_resize v new_capacity mallocOk
      if r.1.values = none then (some r.1, r.2 ++ [dsc_error_t.DSC_ERROR_OUT_OF_MEMORY])
      else (some r.1, r.2 ++ [dsc_error_t.DSC_ERROR_NONE])

end V1

namespace V2

/-- `dsc_vector_resize`, dsc_set.h lines 169-179 (the `DSCVector`
implementation concatenated into that file).  Uses realloc, which on
failure leaves the old buffer intact, and returns whether it succeeded;
there is no overflow guard. -/
def dsc_vector_resize (vector : dsc_vector_t) (new_capacity : Nat) (reallocOk : Bool) :
    dsc_vector_t × List dsc_error_t × Bool :=
  if reallocOk = false then
    (vector, [dsc_error_t.DSC_ERROR_OUT_OF_MEMORY], false)
  else
    ({ vector with values := some (vector.values.getD []), capacity := new_capacity },
      [], true)

/-- `dsc_vector_create`, dsc_set.h lines 181-200 (mallocs the buffer
directly, no call to resize). -/
def dsc_vector_create (structMallocOk bufMallocOk : Bool) :
    Option dsc_vector_t × List dsc_error_t :=
  if structMallocOk = false then (none, [dsc_error_t.DSC_ERROR_OUT_OF_MEMORY])
  else if bufMallocOk = false then (none, [dsc_error_t.DSC_ERROR_OUT_OF_MEMORY])
  else
    (some { values := some [], size := 0, capacity := DSC_VECTOR_INITIAL_CAPACITY },
      [dsc_error_t.DSC_ERROR_NONE])

/-- `dsc_vector_free`, dsc_set.h lines 202-212. -/
def dsc_vector_free (vector : Option dsc_vector_t) :
    Option dsc_vector_t × List dsc_error_t :=
  match vector with
  | none => (none, [dsc_error_t.DSC_ERROR_INVALID_ARGUMENT])
  | some _ => (none, [dsc_error_t.DSC_ERROR_NONE])

/-- `dsc_vector_push_back`, dsc_set.h lines 214-231.  Here the resize's
bool return is checked: a failed grow makes push_back return with the
OUT_OF_MEMORY that resize wrote, mutating nothing.  `new_capacity` is an
unsigned int in C (32-bit, relevant only beyond 2^32 elements). -/
def dsc_vector_push_back (vector : Option dsc_vector_t) (value : Int) (reallocOk : Bool) :
    Option dsc_vector_t × List dsc_error_t :=
  match vector with
  | none => (none, [dsc_error_t.DSC_ERROR_INVALID_ARGUMENT])
  | some v =>
    if v.size ≥ v.capacity then
      let r := dsc_vector_resize v (3 * v.capacity / 2) reallocOk
      if r.2.2 = false then (some r.1, r.2.1)
      else
        (some { r.1 with
                values := some (r.1.values.getD [] ++ [value])
                size := r.1.size + 1 },
          r.2.1 ++ [dsc_error_t.DSC_ERROR_NONE])
    else
      (some { v with values := some (v.values.getD [] ++ [value]), size := v.size + 1 },
        [dsc_error_t.DSC_ERROR_NONE])

/-- `dsc_vector_empty`, dsc_set.h lines 314-322. -/
def dsc_vector_empty (vector : Option dsc_vector_t) : Bool × List dsc_error_t :=
  match vector with
  | none => (true, [dsc_error_t.DSC_ERROR_INVALID_ARGUMENT])
  | some v => (v.size == 0, [dsc_error_t.DSC_ERROR_NONE])

/-- `dsc_vector_pop_back`, dsc_set.h lines 233-246 (like the part_001
version, it calls `dsc_vector_empty`, which writes the error slot first). -/
def dsc_vector_pop_back (vector : Option dsc_vector_t) :
    Option dsc_vector_t × List dsc_error_t :=
  match vector with
  | none => (none, [dsc_error_t.DSC_ERROR_INVALID_ARGUMENT])
  | some v =>
    let e := dsc_vector_empty (some v)
    if e.1 then (some v, e.2 ++ [dsc_error_t.DSC_ERROR_EMPTY_CONTAINER])
    else
      (some { v with values := some ((v.values.getD []).dropLast), size := v.size - 1 },
        e.2 ++ [dsc_error_t.DSC_ERROR_NONE])

/-- `dsc_vector_insert`, dsc_set.h lines 248-277.  Checks the resize's
bool return: a failed grow returns 0 with OUT_OF_MEMORY, mutating
nothing. -/
def dsc_vector_insert (vector : Option dsc_vector_t) (position : Nat) (value : Int)
    (reallocOk : Bool) : Option dsc_vector_t × List dsc_error_t × Nat :=
  match vector with
  | none => (none, [dsc_error_t.DSC_ERROR_INVALID_ARGUMENT], 0)
  | some v =>
    if position > v.size then
      (some v, [dsc_error_t.DSC_ERROR_OUT_OF_RANGE], 0)
    else if v.size ≥ v.capacity then
      let r := dsc_vector_resize v (3 * v.capacity / 2) reallocOk
      if r.2.2 = false then (some r.1, r.2.1, 0)
      else
        (some { r.1 with
                values := some (listInsertAt (r.1.values.getD []) position value)
                size := r.1.size + 1 },
          r.2.1 ++ [dsc_error_t.DSC_ERROR_NONE], position)
    else
      (some { v with
              values := some (listInsertAt (v.values.getD []) position value)
              size := v.size + 1 },
        [dsc_error_t.DSC_ERROR_NONE], position)

/-- `dsc_vector_erase`, dsc_set.h lines 279-297. -/
def dsc_vector_erase (vector : Option dsc_vector_t) (position : Nat) :
    Option dsc_vector_t × List dsc_error_t :=
  match vector with
  | none => (none, [dsc_error_t.DSC_ERROR_INVALID_ARGUMENT])
  | some v =>
    if position ≥ v.size then (some v, [dsc_error_t.DSC_ERROR_OUT_OF_RANGE])
    else
      (some { v with
              values := some (listRemoveAt (v.values.getD []) position)
              size := v.size - 1 },
        [dsc_error_t.DSC_ERROR_NONE])

/-- `dsc_vector_at`, dsc_set.h lines 299-312. -/
def dsc_vector_at (vector : Option dsc_vector_t) (index : Nat) :
    Int × List dsc_error_t :=
  match vector with
  | none => (0, [dsc_error_t.DSC_ERROR_INVALID_ARGUMENT])
  | some v =>
    if index ≥ v.size then (0, [dsc_error_t.DSC_ERROR_OUT_OF_RANGE])
    else ((v.values.getD []).getD index 0, [dsc_error_t.DSC_ERROR_NONE])

/-- `dsc_vector_size`, dsc_set.h lines 324-332.  Returns an int: -1 on a
NULL handle (the part_001 version returns a size_t and yields 0 there). -/
def dsc_vector_size (vector : Option dsc_vector_t) : Int × List dsc_error_t :=
  match vector with
  | none => (-1, [dsc_error_t.DSC_ERROR_INVALID_ARGUMENT])
  | some v => ((v.size : Int), [dsc_error_t.DSC_ERROR_NONE])

/-- `dsc_vector_capacity`, dsc_set.h lines 334-342. -/
def dsc_vector_capacity (vector : Option dsc_vector_t) : Nat × List dsc_error_t :=
  match vector with
  | none => (0, [dsc_error_t.DSC_ERROR_INVALID_ARGUMENT])
  | some v => (v.capacity, [dsc_error_t.DSC_ERROR_NONE])

/-- `dsc_vector_reserve`, dsc_set.h lines 344-359.  Checks the resize's
bool return. -/
def dsc_vector_reserve (vector : Option dsc_vector_t) (new_capacity : Nat)
    (reallocOk : Bool) : Option dsc_vector_t × List dsc_error_t :=
  match vector with
  | none => (none, [dsc_error_t.DSC_ERROR_INVALID_ARGUMENT])
  | some v =>
    if new_capacity ≤ v.capacity then (some v, [dsc_error_t.DSC_ERROR_INVALID_ARGUMENT])
    else
      let r := dsc_vector_resize v new_capacity reallocOk
      if r.2.2 = false then (some r.1, r.2.1)
      else (some r.1, r.2.1 ++ [dsc_error_t.DSC_ERROR_NONE])

end V2

/-- `DSC_SET_INITIAL_CAPACITY`, src/include/dsc_set.h line 29. -/
def DSC_SET_INITIAL_CAPACITY : Nat := 16

/-- `struct dsc_set_t`, src/include/dsc_set.h lines 58-63: an array of
bucket heads (each bucket a chain of entries holding one int key), a
capacity, a size, and a per-set error field.  A chain of
`dsc_set_entry_t` nodes is modelled as the list of its keys in chain
order. -/
structure dsc_set_t where
  buckets : List (List Int)
  capacity : Nat
  size : Nat
  error : dsc_error_t
  deriving DecidableEq

/-- Modelled from the spec: the hash function of the set implementation
(dsc_set.c is not under src/).  Spec 4.1: a modulo-by-capacity scheme,
`key mod capacity`, adjusted for negative keys to stay non-negative.
`Int.emod` already lands in `[0, capacity)` for positive capacity. -/
def dsc_set_hash (key : Int) (capacity : Nat) : Nat :=
  (key % (capacity : Int)).toNat

/-- Modelled from the spec: Rehash (grow), spec 4.1 — every existing entry
is relinked into a new bucket array of the new capacity, computing its
bucket index under the new capacity; size is unchanged. -/
def dsc_set_rehash (s : dsc_set_t) (new_capacity : Nat) : dsc_set_t :=
  { s with
    capacity := new_capacity
    buckets := s.buckets.flatten.foldl
      (fun b k => b.set (dsc_set_hash k new_capacity)
        (k :: b.getD (dsc_set_hash k new_capacity) []))
      (List.replicate new_capacity []) }

/-- Modelled from the spec: `dsc_set_create` (declared at dsc_set.h line
70; the implementation is not under src/).  Spec 4.1 Create: a bucket
array of `DSC_SET_INITIAL_CAPACITY` (16) null-initialized bucket heads,
size 0, capacity 16, error state NONE; on allocation failure it fails
with OUT_OF_MEMORY, returning a null handle. -/
def dsc_set_create (mallocOk : Bool) : Option dsc_set_t × dsc_error_t :=
  if mallocOk = false then (none, dsc_error_t.DSC_ERROR_OUT_OF_MEMORY)
  else
    (some { buckets := List.replicate DSC_SET_INITIAL_CAPACITY []
            capacity := DSC_SET_INITIAL_CAPACITY
            size := 0
            error := dsc_error_t.DSC_ERROR_NONE },
      dsc_error_t.DSC_ERROR_NONE)

/-- Modelled from the spec: `dsc_set_add` (declared at dsc_set.h line 95;
the implementation is not under src/).  Spec 4.1 Add: reject a null
handle (INVALID_ARGUMENT); walk the chain at the key's bucket, duplicate
gives DUPLICATE_ITEM with no mutation; otherwise, if
`(size + 1) / capacity > 0.75` — in exact arithmetic,
`4 * (size + 1) > 3 * capacity` — grow first (the spec leaves the exact
multiplicative step open and recommends doubling, taken here), recompute
the bucket index, prepend a new entry, increment size.  OUT_OF_MEMORY on
allocation failure with the table left in its pre-growth state. -/
def dsc_set_add (s : Option dsc_set_t) (value : Int) (mallocOk : Bool) :
    Option dsc_set_t × dsc_error_t :=
  match s with
  | none => (none, dsc_error_t.DSC_ERROR_INVALID_ARGUMENT)
  | some s =>
    if value ∈ s.buckets.getD (dsc_set_hash value s.capacity) [] then
      (some s, dsc_error_t.DSC_ERROR_DUPLICATE_ITEM)
    else if mallocOk = false then
      (some s, dsc_error_t.DSC_ERROR_OUT_OF_MEMORY)
    else
      let s1 :=
        if 4 * (s.size + 1) > 3 * s.capacity then dsc_set_rehash s (2 * s.capacity)
        else s
      let idx := dsc_set_hash value s1.capacity
      (some { s1 with
              buckets := s1.buckets.set idx (value :: s1.buckets.getD idx [])
              size := s1.size + 1 },
        dsc_error_t.DSC_ERROR_NONE)

/-- Modelled from the spec: `dsc_set_remove` (declared at dsc_set.h line
104; the implementation is not under src/).  Spec 4.1 Remove: reject a
null handle; key absent gives NOT_FOUND with no mutation; otherwise
unlink the entry from its chain and decrement size. -/
def dsc_set_remove (s : Option dsc_set_t) (value : Int) :
    Option dsc_set_t × dsc_error_t :=
  match s with
  | none => (none, dsc_error_t.DSC_ERROR_INVALID_ARGUMENT)
  | some s =>
    let idx := dsc_set_hash value s.capacity
    let chain := s.buckets.getD idx []
    if value ∈ chain then
      (some { s with
              buckets := s.buckets.set idx (chain.erase value)
              size := s.size - 1 },
        dsc_error_t.DSC_ERROR_NONE)
    else (some s, dsc_error_t.DSC_ERROR_NOT_FOUND)

/-- Modelled from the spec: `dsc_set_contains` (declared at dsc_set.h line
113; the implementation is not under src/).  Spec 4.1 Contains: compute
bucket, walk chain, report NONE on a hit and NOT_FOUND on a miss, and
report INVALID_ARGUMENT on a null table rather than swallowing it. -/
def dsc_set_contains (s : Option dsc_set_t) (value : Int) : Bool × dsc_error_t :=
  match s with
  | none => (false, dsc_error_t.DSC_ERROR_INVALID_ARGUMENT)
  | some s =>
    if value ∈ s.buckets.getD (dsc_set_hash value s.capacity) [] then
      (true, dsc_error_t.DSC_ERROR_NONE)
    else (false, dsc_error_t.DSC_ERROR_NOT_FOUND)

/-- One public vector operation on an existing handle.  Push, insert and
reserve carry the success of the allocation their internal resize would
perform. -/
inductive VecOp where
  | push_back (value : Int) (allocOk : Bool)
  | pop_back
  | insert (position : Nat) (value : Int) (allocOk : Bool)
  | erase (position : Nat)
  | at_index (index : Nat)
  | is_empty
  | get_size
  | get_capacity
  | reserve (new_capacity : Nat) (allocOk : Bool)
  | free
  deriving DecidableEq

/-- Result of one operation: the handle afterwards, the error codes the
operation wrote to the process-wide slot (in order), and its return value
encoded as an Int (0 for void operations, 1/0 for bool). -/
structure StepOut where
  handle : Option dsc_vector_t
  trace : List dsc_error_t
  ret : Int
  deriving DecidableEq

/-- Dispatch one operation to the part_001 (`dsc_vector_t`)
implementation. -/
def stepA (h : Option dsc_vector_t) : VecOp → StepOut
  | VecOp.push_back value ok =>
    let r := V1.dsc_vector_push_back h value ok
    { handle := r.1, trace := r.2, ret := 0 }
  | VecOp.pop_back =>
    let r := V1.dsc_vector_pop_back h
    { handle := r.1, trace := r.2, ret := 0 }
  | VecOp.insert position value ok =>
    let r := V1.dsc_vector_insert h position value ok
    { handle := r.1, trace := r.2.1, ret := (r.2.2 : Int) }
  | VecOp.erase position =>
    let r := V1.dsc_vector_erase h position
    { handle := r.1, trace := r.2, ret := 0 }
  | VecOp.at_index index =>
    let r := V1.dsc_vector_at h index
    { handle := h, trace := r.2, ret := r.1 }
  | VecOp.is_empty =>
    let r := V1.dsc_vector_empty h
    { handle := h, trace := r.2, ret := if r.1 then 1 else 0 }
  | VecOp.get_size =>
    let r := V1.dsc_vector_size h
    { handle := h, trace := r.2, ret := (r.1 : Int) }
  | VecOp.get_capacity =>
    let r := V1.dsc_vector_capacity h
    { handle := h, trace := r.2, ret := (r.1 : Int) }
  | VecOp.reserve new_capacity ok =>
    let r := V1.dsc_vector_reserve h new_capacity ok
    { handle := r.1, trace := r.2, ret := 0 }
  | VecOp.free =>
    let r := V1.dsc_vector_free h
    { handle := r.1, trace := r.2, ret := 0 }

/-- Dispatch one operation to the `DSCVector` implementation from
dsc_set.h. -/
def stepB (h : Option dsc_vector_t) : VecOp → StepOut
  | VecOp.push_back value ok =>
    let r := V2.dsc_vector_push_back h value ok
    { handle := r.1, trace := r.2, ret := 0 }
  | VecOp.pop_back =>
    let r := V2.dsc_vector_pop_back h
    { handle := r.1, trace := r.2, ret := 0 }
  | VecOp.insert position value ok =>
    let r := V2.dsc_vector_insert h position value ok
    { handle := r.1, trace := r.2.1, ret := (r.2.2 : Int) }
  | VecOp.erase position =>
    let r := V2.dsc_vector_erase h position
    { handle := r.1, trace := r.2, ret := 0 }
  | VecOp.at_index index =>
    let r := V2.dsc_vector_at h index
    { handle := h, trace := r.2, ret := r.1 }
  | VecOp.is_empty =>
    let r := V2.dsc_vector_empty h
    { handle := h, trace := r.2, ret := if r.1 then 1 else 0 }
  | VecOp.get_size =>
    let r := V2.dsc_vector_size h
    { handle := h, trace := r.2, ret := r.1 }
  | VecOp.get_capacity =>
    let r := V2.dsc_vector_capacity h
    { handle := h, trace := r.2, ret := (r.1 : Int) }
  | VecOp.reserve new_capacity ok =>
    let r := V2.dsc_vector_reserve h new_capacity ok
    { handle := r.1, trace := r.2, ret := 0 }
  | VecOp.free =>
    let r := V2.dsc_vector_free h
    { handle := r.1, trace := r.2, ret := 0 }

/-- Run a sequence of operations through the part_001 implementation,
threading the process-wide error slot (a write-trace's last element
overwrites it) and collecting each operation's observables: its return
value and the error slot's value right after it. -/
def runA (h : Option dsc_vector_t) (e : dsc_error_t) :
    List VecOp → Option dsc_vector_t × dsc_error_t × List (Int × dsc_error_t)
  | [] => (h, e, [])
  | op :: ops =>
    let s := stepA h op
    let e1 := s.trace.getLast?.getD e
    let rest := runA s.handle e1 ops
    (rest.1, rest.2.1, (s.ret, e1) :: rest.2.2)

/-- Run a sequence of operations through the `DSCVector` implementation,
collecting the same observables as `runA`. -/
def runB (h : Option dsc_vector_t) (e : dsc_error_t) :
    List VecOp → Option dsc_vector_t × dsc_error_t × List (Int × dsc_error_t)
  | [] => (h, e, [])
  | op :: ops =>
    let s := stepB h op
    let e1 := s.trace.getLast?.getD e
    let rest := runB s.handle e1 ops
    (rest.1, rest.2.1, (s.ret, e1) :: rest.2.2)

/-- The growth the next resize of `h` would request stays within the
part_001 overflow guard. -/
def capOk (h : Option dsc_vector_t) : Bool :=
  match h with
  | none => true
  | some v => decide (3 * v.capacity / 2 ≤ SIZE_MAX / 4)

/-- An operation on `h` on which the two implementations cannot be told
apart: its internal allocations succeed, requested capacities stay within
the part_001 overflow guard, and the size query is not made on a null
handle (part_001 returns 0 there, DSCVector returns -1). -/
def benign (h : Option dsc_vector_t) : VecOp → Bool
  | VecOp.push_back _ ok => ok && capOk h
  | VecOp.insert _ _ ok => ok && capOk h
  | VecOp.reserve new_capacity ok => ok && decide (new_capacity ≤ SIZE_MAX / 4)
  | VecOp.get_size => h.isSome
  | _ => true

/-- Every operation of the sequence is benign in the state it runs in
(states followed along the part_001 implementation). -/
def okSeq : Option dsc_vector_t → List VecOp → Bool
  | _, [] => true
  | h, op :: ops => benign h op && okSeq (stepA h op).handle ops

/-- The differentiating run for the two vector implementations: fill a
fresh capacity-16 vector, then push once more with the allocation failing,
then query the size. -/
def demoOps : List VecOp :=
  List.replicate 16 (VecOp.push_back 0 true) ++
    [VecOp.push_back 0 false, VecOp.get_size]

/-- The handle a successful `dsc_vector_create` yields in either
implementation. -/
def demoStart : Option dsc_vector_t :=
  some { values := some [], size := 0, capacity := DSC_VECTOR_INITIAL_CAPACITY }

/-- A freshly created hash set (capacity 16, empty). -/
def set0 : dsc_set_t :=
  { buckets := List.replicate 16 []
    capacity := 16
    size := 0
    error := dsc_error_t.DSC_ERROR_NONE }

/-- The hash set obtained by adding the key 5 to `set0`: key 5 hashes to
bucket 5. -/
def setAfterAdd5 : dsc_set_t :=
  { buckets := (List.replicate 16 ([] : List Int)).set 5 [5]
    capacity := 16
    size := 1
    error := dsc_error_t.DSC_ERROR_NONE }

/-- C2: the claim says every public operation writes the process-wide
error slot exactly once, and that a dsc_vector_push_back whose grow fails
leaves OUT_OF_MEMORY behind.  On a full vector (size = capacity = 16)
with malloc failing, part_001's push_back writes the slot twice —
OUT_OF_MEMORY from the failed resize and then DSC_ERROR_NONE from its own
success path, because the `values == NULL` check cannot detect the
failure — so the error state left behind is NONE. -/
theorem dsc_vector_push_back_alloc_failure_error_trace :
    (V1.dsc_vector_push_back
        (some { values := some (List.replicate 16 0), size := 16, capacity := 16 })
        7 false).2
      = [dsc_error_t.DSC_ERROR_OUT_OF_MEMORY, dsc_error_t.DSC_ERROR_NONE] := by
  decide

/-- C3: the claim says an allocation failure during push_back leaves
size, capacity and contents unchanged with size never exceeding capacity.
On a full vector (size = capacity = 16) with malloc failing, part_001's
push_back instead appends the element past the old buffer and increments
size to 17 > capacity 16. -/
theorem dsc_vector_push_back_alloc_failure_mutates :
    V1.dsc_vector_push_back
        (some { values := some (List.replicate 16 0), size := 16, capacity := 16 })
        5 false
      = (some { values := some (List.replicate 16 0 ++ [5]), size := 17, capacity := 16 },
         [dsc_error_t.DSC_ERROR_OUT_OF_MEMORY, dsc_error_t.DSC_ERROR_NONE]) := by
  decide

/-- C4: dsc_set_create yields a set with DSC_SET_INITIAL_CAPACITY = 16
null-initialized bucket heads, size 0, capacity 16 and error state NONE,
and fails with OUT_OF_MEMORY when allocation fails. -/
theorem dsc_set_create_spec :
    dsc_set_create true
        = (some { buckets := List.replicate DSC_SET_INITIAL_CAPACITY []
                  capacity := 16
                  size := 0
                  error := dsc_error_t.DSC_ERROR_NONE },
           dsc_error_t.DSC_ERROR_NONE)
      ∧ dsc_set_create false = (none, dsc_error_t.DSC_ERROR_OUT_OF_MEMORY) :=
  ⟨rfl, rfl⟩

/-- C10: the claim says dsc_vector_insert returns 0 on every failure,
allocation failure included.  In part_001, when the internal grow's
malloc fails on a full vector, insert does not detect it: it performs the
insert anyway (writing past the old buffer), returns its position
argument 1, and leaves the error slot at DSC_ERROR_NONE. -/
theorem dsc_vector_insert_alloc_failure_returns_position :
    V1.dsc_vector_insert
        (some { values := some (List.replicate 16 0), size := 16, capacity := 16 })
        1 9 false
      = (some { values := some (listInsertAt (List.replicate 16 0) 1 9)
                size := 17
                capacity := 16 },
         [dsc_error_t.DSC_ERROR_OUT_OF_MEMORY, dsc_error_t.DSC_ERROR_NONE], 1) := by
  decide

/-- C8 counterexample: the two vector implementations are not observably
equivalent.  Filling a fresh capacity-16 vector, pushing once more with
the allocation failing, and then querying the size yields different
observables: part_001 reports error NONE after the failing push and size
17, the DSCVector implementation reports OUT_OF_MEMORY and size 16. -/
theorem vector_impls_not_equivalent :
    runA demoStart dsc_error_t.DSC_ERROR_NONE demoOps
      ≠ runB demoStart dsc_error_t.DSC_ERROR_NONE demoOps := by
  decide

/-- C6: every handle-taking public operation of both vector
implementations and of the set, given a NULL handle, reports
INVALID_ARGUMENT, mutates nothing (the handle stays null and no container
is touched), and returns normally with its documented fallback value
(create takes no handle, so the property is vacuous for it). -/
theorem null_handle_rejected (value key : Int) (position index new_capacity : Nat)
    (ok ok2 ok3 : Bool) :
    V1.dsc_vector_free none = (none, [dsc_error_t.DSC_ERROR_INVALID_ARGUMENT])
    ∧ V1.dsc_vector_push_back none value ok
        = (none, [dsc_error_t.DSC_ERROR_INVALID_ARGUMENT])
    ∧ V1.dsc_vector_pop_back none = (none, [dsc_error_t.DSC_ERROR_INVALID_ARGUMENT])
    ∧ V1.dsc_vector_insert none position value ok
        = (none, [dsc_error_t.DSC_ERROR_INVALID_ARGUMENT], 0)
    ∧ V1.dsc_vector_erase none position = (none, [dsc_error_t.DSC_ERROR_INVALID_ARGUMENT])
    ∧ V1.dsc_vector_at none index = (0, [dsc_error_t.DSC_ERROR_INVALID_ARGUMENT])
    ∧ V1.dsc_vector_empty none = (true, [dsc_error_t.DSC_ERROR_INVALID_ARGUMENT])
    ∧ V1.dsc_vector_size none = (0, [dsc_error_t.DSC_ERROR_INVALID_ARGUMENT])
    ∧ V1.dsc_vector_capacity none = (0, [dsc_error_t.DSC_ERROR_INVALID_ARGUMENT])
    ∧ V1.dsc_vector_reserve none new_capacity ok
        = (none, [dsc_error_t.DSC_ERROR_INVALID_ARGUMENT])
    ∧ V2.dsc_vector_free none = (none, [dsc_error_t.DSC_ERROR_INVALID_ARGUMENT])
    ∧ V2.dsc_vector_push_back none value ok2
        = (none, [dsc_error_t.DSC_ERROR_INVALID_ARGUMENT])
    ∧ V2.dsc_vector_pop_back none = (none, [dsc_error_t.DSC_ERROR_INVALID_ARGUMENT])
    ∧ V2.dsc_vector_insert none position value ok2
        = (none, [dsc_error_t.DSC_ERROR_INVALID_ARGUMENT], 0)
    ∧ V2.dsc_vector_erase none position = (none, [dsc_error_t.DSC_ERROR_INVALID_ARGUMENT])
    ∧ V2.dsc_vector_at none index = (0, [dsc_error_t.DSC_ERROR_INVALID_ARGUMENT])
    ∧ V2.dsc_vector_empty none = (true, [dsc_error_t.DSC_ERROR_INVALID_ARGUMENT])
    ∧ V2.dsc_vector_size none = (-1, [dsc_error_t.DSC_ERROR_INVALID_ARGUMENT])
    ∧ V2.dsc_vector_capacity none = (0, [dsc_error_t.DSC_ERROR_INVALID_ARGUMENT])
    ∧ V2.dsc_vector_reserve none new_capacity ok2
        = (none, [dsc_error_t.DSC_ERROR_INVALID_ARGUMENT])
    ∧ dsc_set_add none key ok3 = (none, dsc_error_t.DSC_ERROR_INVALID_ARGUMENT)
    ∧ dsc_set_remove none key = (none, dsc_error_t.DSC_ERROR_INVALID_ARGUMENT)
    ∧ dsc_set_contains none key = (false, dsc_error_t.DSC_ERROR_INVALID_ARGUMENT) :=
  ⟨rfl, rfl, rfl, rfl, rfl, rfl, rfl, rfl, rfl, rfl, rfl, rfl, rfl, rfl, rfl, rfl,
    rfl, rfl, rfl, rfl, rfl, rfl, rfl⟩

/-- C7: on a non-null vector, dsc_vector_at with an index at or past the
size, dsc_vector_erase with such a position, and dsc_vector_insert with a
position strictly past the size all report OUT_OF_RANGE, return their
fallback value, and leave the vector (size, capacity and contents)
unchanged. -/
theorem vector_out_of_range_ops (v : dsc_vector_t) (index position q : Nat)
    (value : Int) (ok : Bool)
    (hi : index ≥ v.size) (hp : position ≥ v.size) (hq : q > v.size) :
    V1.dsc_vector_at (some v) index = (0, [dsc_error_t.DSC_ERROR_OUT_OF_RANGE])
    ∧ V1.dsc_vector_erase (some v) position
        = (some v, [dsc_error_t.DSC_ERROR_OUT_OF_RANGE])
    ∧ V1.dsc_vector_insert (some v) q value ok
        = (some v, [dsc_error_t.DSC_ERROR_OUT_OF_RANGE], 0) := by
  refine ⟨?_, ?_, ?_⟩
  · simp [V1.dsc_vector_at, hi]
  · simp [V1.dsc_vector_erase, hp]
  · simp [V1.dsc_vector_insert, hq]

/-- C7 witness: the out-of-range theorem applied to an empty capacity-16
vector with index 0, position 0 and insert position 1. -/
theorem vector_out_of_range_ops_witness :
    V1.dsc_vector_at (some { values := some [], size := 0, capacity := 16 }) 0
        = (0, [dsc_error_t.DSC_ERROR_OUT_OF_RANGE])
    ∧ V1.dsc_vector_erase (some { values := some [], size := 0, capacity := 16 }) 0
        = (some { values := some [], size := 0, capacity := 16 },
           [dsc_error_t.DSC_ERROR_OUT_OF_RANGE])
    ∧ V1.dsc_vector_insert (some { values := some [], size := 0, capacity := 16 }) 1 7 true
        = (some { values := some [], size := 0, capacity := 16 },
           [dsc_error_t.DSC_ERROR_OUT_OF_RANGE], 0) :=
  vector_out_of_range_ops { values := some [], size := 0, capacity := 16 } 0 0 1 7 true
    (by decide) (by decide) (by decide)

/-- C5: whenever an element is added while size equals capacity, the grow
that push_back or insert performs (in either implementation) installs a
new capacity equal to the old capacity multiplied by 1.5 and truncated to
an integer, i.e. floor(3 * capacity / 2); the part_001 paths additionally
need the requested capacity to pass resize's SIZE_MAX overflow guard. -/
theorem vector_growth_factor (v : dsc_vector_t) (value : Int) (position : Nat)
    (hsz : v.size = v.capacity)
    (hg : 3 * v.capacity / 2 ≤ SIZE_MAX / 4)
    (hpos : position ≤ v.size) :
    (V1.dsc_vector_push_back (some v) value true).1.map dsc_vector_t.capacity
        = some (3 * v.capacity / 2)
    ∧ (V1.dsc_vector_insert (some v) position value true).1.map dsc_vector_t.capacity
        = some (3 * v.capacity / 2)
    ∧ (V2.dsc_vector_push_back (some v) value true).1.map dsc_vector_t.capacity
        = some (3 * v.capacity / 2)
    ∧ (V2.dsc_vector_insert (some v) position value true).1.map dsc_vector_t.capacity
        = some (3 * v.capacity / 2) := by
  have hge : v.size ≥ v.capacity := Nat.le_of_eq hsz.symm
  have hng : ¬ (3 * v.capacity / 2 > SIZE_MAX / 4) := Nat.not_lt.2 hg
  have hq : ¬ (position > v.size) := Nat.not_lt.2 hpos
  refine ⟨?_, ?_, ?_, ?_⟩
  · simp [V1.dsc_vector_push_back, V1.dsc_vector_resize, hge, hng]
  · simp [V1.dsc_vector_insert, V1.dsc_vector_resize, hge, hng, hq]
  · simp [V2.dsc_vector_push_back, V2.dsc_vector_resize, hge]
  · simp [V2.dsc_vector_insert, V2.dsc_vector_resize, hge, hq]

/-- C5 witness: a full capacity-16 vector grows to capacity 24 = 3*16/2 in
all four growth paths. -/
theorem vector_growth_factor_witness :
    (V1.dsc_vector_push_back
        (some { values := some (List.replicate 16 0), size := 16, capacity := 16 })
        3 true).1.map dsc_vector_t.capacity = some (3 * 16 / 2)
    ∧ (V1.dsc_vector_insert
        (some { values := some (List.replicate 16 0), size := 16, capacity := 16 })
        4 3 true).1.map dsc_vector_t.capacity = some (3 * 16 / 2)
    ∧ (V2.dsc_vector_push_back
        (some { values := some (List.replicate 16 0), size := 16, capacity := 16 })
        3 true).1.map dsc_vector_t.capacity = some (3 * 16 / 2)
    ∧ (V2.dsc_vector_insert
        (some { values := some (List.replicate 16 0), size := 16, capacity := 16 })
        4 3 true).1.map dsc_vector_t.capacity = some (3 * 16 / 2) :=
  vector_growth_factor { values := some (List.replicate 16 0), size := 16, capacity := 16 }
    3 4 (by decide) (by decide) (by decide)

/-- Helper: the truncated 1.5x growth never shrinks a capacity. -/
theorem capacity_le_three_halves (c : Nat) : c ≤ 3 * c / 2 := by
  omega

/-- C9: no public vector operation on an existing handle ever decreases
the capacity field of the part_001 implementation: whenever an operation
run on a vector leaves a live handle, the new capacity is at least the
old one. -/
theorem vector_capacity_monotone (v w : dsc_vector_t) (op : VecOp)
    (hw : (stepA (some v) op).handle = some w) : v.capacity ≤ w.capacity := by
  cases op with
  | push_back value ok =>
    simp only [stepA, V1.dsc_vector_push_back, V1.dsc_vector_resize] at hw
    split_ifs at hw <;> simp_all <;> ((subst hw; simp) <;> omega)
  | pop_back =>
    simp only [stepA, V1.dsc_vector_pop_back, V1.dsc_vector_empty] at hw
    split_ifs at hw <;> simp_all <;> (subst hw; simp)
  | insert position value ok =>
    simp only [stepA, V1.dsc_vector_insert, V1.dsc_vector_resize] at hw
    split_ifs at hw <;> simp_all <;> ((subst hw; simp) <;> omega)
  | erase position =>
    simp only [stepA, V1.dsc_vector_erase] at hw
    split_ifs at hw <;> simp_all <;> (subst hw; simp)
  | at_index index =>
    simp only [stepA] at hw
    simp_all
  | is_empty =>
    simp only [stepA] at hw
    simp_all
  | get_size =>
    simp only [stepA] at hw
    simp_all
  | get_capacity =>
    simp only [stepA] at hw
    simp_all
  | reserve new_capacity ok =>
    simp only [stepA, V1.dsc_vector_reserve, V1.dsc_vector_resize] at hw
    split_ifs at hw <;> simp_all <;> ((subst hw; simp) <;> omega)
  | free =>
    simp only [stepA, V1.dsc_vector_free] at hw
    simp_all

/-- C9 witness: pushing onto a full capacity-2 vector leaves capacity
3 = 3*2/2, at least the old capacity 2. -/
theorem vector_capacity_monotone_witness :
    ({ values := some [1, 2], size := 2, capacity := 2 } : dsc_vector_t).capacity
      ≤ ({ values := some [1, 2, 9], size := 3, capacity := 3 } : dsc_vector_t).capacity :=
  vector_capacity_monotone { values := some [1, 2], size := 2, capacity := 2 }
    { values := some [1, 2, 9], size := 3, capacity := 3 }
    (VecOp.push_back 9 true) (by decide)

/-- C1: spec-modelled hash-set add.  Starting from a set satisfying the
load-factor invariant size/capacity <= 3/4 (in exact arithmetic,
4*size <= 3*capacity) with capacity at least 2, a dsc_set_add that
completes successfully (error NONE) leaves the invariant holding; the
grow/rehash runs exactly when the post-insert load would exceed the
threshold (doubling the capacity), and otherwise capacity is unchanged. -/
theorem dsc_set_add_preserves_load_factor (s : dsc_set_t) (value : Int) (t : dsc_set_t)
    (hcap : 2 ≤ s.capacity) (hinv : 4 * s.size ≤ 3 * s.capacity)
    (hadd : dsc_set_add (some s) value true = (some t, dsc_error_t.DSC_ERROR_NONE)) :
    4 * t.size ≤ 3 * t.capacity
      ∧ (3 * s.capacity < 4 * (s.size + 1) → t.capacity = 2 * s.capacity)
      ∧ (4 * (s.size + 1) ≤ 3 * s.capacity → t.capacity = s.capacity) := by
  simp only [dsc_set_add] at hadd
  by_cases hdup : value ∈ s.buckets.getD (dsc_set_hash value s.capacity) []
  · rw [if_pos hdup] at hadd
    simp at hadd
  · rw [if_neg hdup, if_neg (by decide : ¬ ((true : Bool) = false))] at hadd
    by_cases htrig : 4 * (s.size + 1) > 3 * s.capacity
    · rw [if_pos htrig] at hadd
      rw [Prod.mk.injEq, Option.some.injEq] at hadd
      obtain ⟨h1, -⟩ := hadd
      subst h1
      refine ⟨?_, fun _ => ?_, fun hle => ?_⟩
      · simp [dsc_set_rehash]
        omega
      · simp [dsc_set_rehash]
      · exact absurd hle (by omega)
    · rw [if_neg htrig] at hadd
      rw [Prod.mk.injEq, Option.some.injEq] at hadd
      obtain ⟨h1, -⟩ := hadd
      subst h1
      refine ⟨?_, fun hgt => ?_, fun _ => ?_⟩
      · simp
        omega
      · exact absurd hgt htrig
      · simp

/-- C1 witness: adding the key 5 to a fresh empty capacity-16 set keeps
the load-factor invariant (1/16 <= 3/4) and, since 4*(0+1) <= 3*16, no
rehash runs and capacity stays 16. -/
theorem dsc_set_add_preserves_load_factor_witness :
    4 * setAfterAdd5.size ≤ 3 * setAfterAdd5.capacity
      ∧ (3 * set0.capacity < 4 * (set0.size + 1) → setAfterAdd5.capacity = 2 * set0.capacity)
      ∧ (4 * (set0.size + 1) ≤ 3 * set0.capacity → setAfterAdd5.capacity = set0.capacity) :=
  dsc_set_add_preserves_load_factor set0 5 setAfterAdd5 (by decide) (by decide) (by decide)

/-- Helper for the amended equivalence: on a benign operation run from the
same handle, the two vector implementations take identical steps. -/
theorem step_eq_of_benign (h : Option dsc_vector_t) (op : VecOp)
    (hb : benign h op = true) : stepA h op = stepB h op := by
  cases op with
  | push_back value ok =>
    cases h with
    | none => rfl
    | some v =>
      simp only [benign, capOk, Bool.and_eq_true, decide_eq_true_eq] at hb
      obtain ⟨hok, hcapv⟩ := hb
      subst hok
      have hng : ¬ (3 * v.capacity / 2 > SIZE_MAX / 4) := by omega
      simp [stepA, stepB, V1.dsc_vector_push_back, V2.dsc_vector_push_back,
        V1.dsc_vector_resize, V2.dsc_vector_resize, hng]
  | pop_back => cases h <;> rfl
  | insert position value ok =>
    cases h with
    | none => rfl
    | some v =>
      simp only [benign, capOk, Bool.and_eq_true, decide_eq_true_eq] at hb
      obtain ⟨hok, hcapv⟩ := hb
      subst hok
      have hng : ¬ (3 * v.capacity / 2 > SIZE_MAX / 4) := by omega
      simp [stepA, stepB, V1.dsc_vector_insert, V2.dsc_vector_insert,
        V1.dsc_vector_resize, V2.dsc_vector_resize, hng]
  | erase position => cases h <;> rfl
  | at_index index => cases h <;> rfl
  | is_empty => cases h <;> rfl
  | get_size =>
    cases h with
    | none => simp [benign] at hb
    | some v => rfl
  | get_capacity => cases h <;> rfl
  | reserve new_capacity ok =>
    cases h with
    | none => rfl
    | some v =>
      simp only [benign, Bool.and_eq_true, decide_eq_true_eq] at hb
      obtain ⟨hok, hcapv⟩ := hb
      subst hok
      have hng : ¬ (new_capacity > SIZE_MAX / 4) := by omega
      simp [stepA, stepB, V1.dsc_vector_reserve, V2.dsc_vector_reserve,
        V1.dsc_vector_resize, V2.dsc_vector_resize, hng]
  | free => cases h <;> rfl

/-- C8 amended: the two vector implementations are observably equivalent
(same per-operation return values, same error slot after each operation,
same final handle state and final error) on every operation sequence in
which each operation is benign in the state it runs in: its internal
allocations succeed, requested capacities stay within the part_001
SIZE_MAX overflow guard, and dsc_vector_size is not called on a null
handle. -/
theorem vector_impls_equivalent_on_benign_sequences
    (h : Option dsc_vector_t) (e : dsc_error_t) (ops : List VecOp)
    (hok : okSeq h ops = true) : runA h e ops = runB h e ops := by
  induction ops generalizing h e with
  | nil => rfl
  | cons op ops ih =>
    simp only [okSeq, Bool.and_eq_true] at hok
    have hs := step_eq_of_benign h op hok.1
    simp only [runA, runB, ← hs]
    rw [ih (stepA h op).handle (((stepA h op).trace.getLast?).getD e) hok.2]

/-- C8 amended witness: a benign sequence (one successful push, a size
query, one pop) on a fresh capacity-16 vector runs identically through
both implementations. -/
theorem vector_impls_equivalent_on_benign_sequences_witness :
    okSeq demoStart [VecOp.push_back 5 true, VecOp.get_size, VecOp.pop_back] = true
    ∧ runA demoStart dsc_error_t.DSC_ERROR_NONE
          [VecOp.push_back 5 true, VecOp.get_size, VecOp.pop_back]
        = runB demoStart dsc_error_t.DSC_ERROR_NONE
          [VecOp.push_back 5 true, VecOp.get_size, VecOp.pop_back] :=
  ⟨by decide,
    vector_impls_equivalent_on_benign_sequences demoStart dsc_error_t.DSC_ERROR_NONE
      [VecOp.push_back 5 true, VecOp.get_size, VecOp.pop_back] (by decide)⟩
